import Mathlib

/-!
Verification model of the `mgz-fast` recorded-game header parser
(`src/mgz/fast/header.py`).  The parser is shallowly embedded: the byte
stream is a `List Nat` (one byte per element) together with a cursor,
mirroring the `io.BytesIO` object that the Python code threads through
every stage.  Reads performed through the `mgz.util.unpack` helper
(which calls `struct.unpack` on exactly `calcsize(fmt)` bytes and raises
`struct.error` when the stream is short) are modelled by `readExact`;
bare `data.read(n)` calls (which silently return fewer bytes at end of
stream) are modelled by `readUpTo` / `skipN`.  Parsers are written in
direct style: a parser is a function `Cursor → Except String (α × Cursor)`
and sequencing is by explicit `match`, every exception being fatal, as in
the source (spec section 7).  Python floats are carried either as their
raw IEEE-754 bit patterns (when the value is never inspected) or as exact
rationals via `decodeF32`; `save_version` thresholds are exact rational
comparisons on `mkRat` literals, matching the code, which rounds the save
version once in `parse_version` and compares the rounded value everywhere
else.
-/

set_option maxRecDepth 100000
set_option maxHeartbeats 4000000

/-- Game edition variant, modelled from the spec (section 3): the closed set
produced by the external `mgz.util.get_version` classifier.  Only the
variants the core accepts, plus representative rejected ones. -/
inductive Version where
  | AOK
  | AOC
  | USERPATCH15
  | HD
  | DE
  | MCP
  | TRIAL
deriving DecidableEq, Repr

/-- A byte stream with a cursor, mirroring `io.BytesIO`: `data` is the
immutable buffer, `pos` the mutable position, and `rest` caches the
suffix of the buffer at the position (invariant: `rest = data.drop pos`).
Every operation preserves the invariant; seeks recompute the suffix from
`data`.  `pos` may lie beyond `data.length` (Python allows seeking past
the end), in which case `rest` is empty. -/
structure Cursor where
  data : List Nat
  rest : List Nat
  pos : Nat
deriving DecidableEq, Repr

/-- A cursor at the start of a buffer. -/
def cursorOf (data : List Nat) : Cursor := ⟨data, data, 0⟩

instance {ε α : Type} [DecidableEq ε] [DecidableEq α] : DecidableEq (Except ε α) := fun x y =>
  match x, y with
  | .ok a, .ok b =>
    if h : a = b then .isTrue (by rw [h]) else .isFalse (fun hh => h (Except.ok.inj hh))
  | .error a, .error b =>
    if h : a = b then .isTrue (by rw [h]) else .isFalse (fun hh => h (Except.error.inj hh))
  | .ok _, .error _ => .isFalse (fun hh => Except.noConfusion hh)
  | .error _, .ok _ => .isFalse (fun hh => Except.noConfusion hh)

/-- Split off exactly `n` leading bytes; `none` when fewer are available. -/
def takeExact : Nat → List Nat → Option (List Nat × List Nat)
  | 0, l => some ([], l)
  | _ + 1, [] => none
  | n + 1, b :: l =>
    match takeExact n l with
    | some (chunk, rest) => some (b :: chunk, rest)
    | none => none

/-- Split off up to `n` leading bytes, returning the chunk, its length and
the remainder (Python `read(n)` semantics). -/
def takeUpTo : Nat → List Nat → List Nat × Nat × List Nat
  | 0, l => ([], 0, l)
  | _ + 1, [] => ([], 0, [])
  | n + 1, b :: l =>
    let r := takeUpTo n l
    (b :: r.1, r.2.1 + 1, r.2.2)

/-- Drop up to `n` leading bytes, returning the number dropped and the
remainder. -/
def dropUpTo : Nat → List Nat → Nat × List Nat
  | 0, l => (0, l)
  | _ + 1, [] => (0, [])
  | n + 1, _ :: l =>
    let r := dropUpTo n l
    (r.1 + 1, r.2)

/-- `data.read(n)` with the result discarded: advance by up to `n` bytes,
never failing. -/
def skipN (n : Nat) (c : Cursor) : Cursor :=
  let r := dropUpTo n c.rest
  ⟨c.data, r.2, c.pos + r.1⟩

/-- `data.read(n)` on `io.BytesIO`: up to `n` bytes, silently fewer at end
of stream. -/
def readUpTo (n : Nat) (c : Cursor) : List Nat × Cursor :=
  let r := takeUpTo n c.rest
  (r.1, ⟨c.data, r.2.2, c.pos + r.2.1⟩)

/-- Modelled from the spec (section 4.1 Cursor): `mgz.util.unpack` reads
exactly `calcsize(fmt)` bytes from the stream and decodes them; a short
read raises `struct.error`.  `readExact n` is that read of `n` bytes. -/
def readExact (n : Nat) (c : Cursor) : Except String (List Nat × Cursor) :=
  match takeExact n c.rest with
  | some (chunk, rest) => .ok (chunk, ⟨c.data, rest, c.pos + n⟩)
  | none => .error "struct.error: unpack requires more bytes"

/-- `seek(target)` (absolute): reposition and recompute the suffix. -/
def seekTo (target : Nat) (c : Cursor) : Cursor :=
  ⟨c.data, c.data.drop target, target⟩

/-- Little-endian value of a byte list. -/
def leNat (bs : List Nat) : Nat :=
  bs.foldr (fun b acc => b + 256 * acc) 0

/-- Two's-complement reinterpretation of a `w`-bit unsigned value. -/
def asSigned (w : Nat) (v : Nat) : ℤ :=
  if v < 2 ^ (w - 1) then (v : ℤ) else (v : ℤ) - 2 ^ w

/-- A single byte as a signed 8-bit value (struct format `b`). -/
def asI8 (b : Nat) : ℤ := asSigned 8 b

/-- Two little-endian bytes as a signed 16-bit value (struct format `<h`). -/
def asI16 (bs : List Nat) : ℤ := asSigned 16 (leNat bs)

/-- struct format `<I`: little-endian unsigned 32-bit read. -/
def readU32 (c : Cursor) : Except String (Nat × Cursor) :=
  match readExact 4 c with
  | .ok (b, c₂) => .ok (leNat b, c₂)
  | .error e => .error e

/-- struct format `<Q`: little-endian unsigned 64-bit read. -/
def readU64 (c : Cursor) : Except String (Nat × Cursor) :=
  match readExact 8 c with
  | .ok (b, c₂) => .ok (leNat b, c₂)
  | .error e => .error e

/-- struct format `<i`: little-endian signed 32-bit read. -/
def readI32 (c : Cursor) : Except String (ℤ × Cursor) :=
  match readExact 4 c with
  | .ok (b, c₂) => .ok (asSigned 32 (leNat b), c₂)
  | .error e => .error e

/-- struct format `<h`: little-endian signed 16-bit read. -/
def readI16 (c : Cursor) : Except String (ℤ × Cursor) :=
  match readExact 2 c with
  | .ok (b, c₂) => .ok (asSigned 16 (leNat b), c₂)
  | .error e => .error e

/-- struct format `b`: signed byte read. -/
def readI8 (c : Cursor) : Except String (ℤ × Cursor) :=
  match readExact 1 c with
  | .ok (b, c₂) => .ok (asI8 (b.getD 0 0), c₂)
  | .error e => .error e

/-- struct format `<B`: unsigned byte read. -/
def readU8 (c : Cursor) : Except String (Nat × Cursor) :=
  match readExact 1 c with
  | .ok (b, c₂) => .ok (b.getD 0 0, c₂)
  | .error e => .error e

/-- Read `n` little-endian u32 values (a loop of `unpack('<I', ...)`);
`acc` accumulates in reverse. -/
def readU32List (acc : List Nat) : Nat → Cursor → Except String (List Nat × Cursor)
  | 0, c => .ok (acc.reverse, c)
  | n + 1, c =>
    match readU32 c with
    | .ok (v, c₂) => readU32List (v :: acc) n c₂
    | .error e => .error e

/-- Decode IEEE-754 single precision from its 32-bit pattern into an exact
rational.  `none` for the non-finite encodings (exponent 255); the
recorded-game fields the model inspects are always finite. -/
def decodeF32 (bits : Nat) : Option ℚ :=
  let sign : Nat := bits / 2 ^ 31 % 2
  let exp : Nat := bits / 2 ^ 23 % 2 ^ 8
  let frac : Nat := bits % 2 ^ 23
  if exp = 255 then none
  else
    let mag : ℚ :=
      if exp = 0 then mkRat frac (2 ^ 149)
      else if 150 ≤ exp then mkRat ((2 ^ 23 + frac) * 2 ^ (exp - 150)) 1
      else mkRat (2 ^ 23 + frac) (2 ^ (150 - exp))
    some (if sign = 1 then -mag else mag)

/-- Python `int(x)` on a float: truncation toward zero, computed on the
reduced numerator and denominator (`Int.tdiv` truncates toward zero). -/
def pyInt (q : ℚ) : ℤ :=
  Int.tdiv q.num q.den

/-- Python `round(x, 2)`: round to two decimal places, ties to even, on the
exact rational value of the float.  `f` is the floor of `q * 100` and
`rem` its remainder, so the fractional part of `q * 100` is `rem / d`;
it is compared against one half by cross-multiplication. -/
def pyRound2 (q : ℚ) : ℚ :=
  let n : ℤ := q.num * 100
  let d : ℤ := (q.den : ℤ)
  let f : ℤ := Int.fdiv n d
  let rem : ℤ := n - d * f
  let r : ℤ :=
    if d < 2 * rem then f + 1
    else if 2 * rem < d then f
    else if Int.emod f 2 = 0 then f else f + 1
  mkRat r 100

/-- Python `bytes.find(needle)`: index of the leftmost full occurrence, `-1`
when absent. -/
def pyFind (hay needle : List Nat) : ℤ :=
  match (List.range (hay.length + 1)).find? (fun i => needle.isPrefixOf (hay.drop i)) with
  | some i => (i : ℤ)
  | none => -1

/-- Python `str.split(sep)` for a one-byte separator, on the raw bytes (the
code decodes UTF-8 first; a one-byte ASCII separator splits at the same
positions either way). -/
def splitByte (sep : Nat) (l : List Nat) : List (List Nat) :=
  l.foldr
    (fun b acc =>
      if b = sep then [] :: acc
      else
        match acc with
        | [] => [[b]]
        | h :: t => (b :: h) :: t)
    [[]]

/-- Python `bytes.strip(b'\x00')`: remove leading and trailing zero bytes. -/
def stripZeros (l : List Nat) : List Nat :=
  ((l.dropWhile (· = 0)).reverse.dropWhile (· = 0)).reverse

/-- `de_string` (header.py:60-67): 2-byte magic `60 0a`, then an `<h` length,
then that many bytes.  A magic mismatch raises `ValueError` (this covers a
short stream too, since a short read cannot equal the magic). -/
def de_string (c : Cursor) : Except String (List Nat × Cursor) :=
  let m := readUpTo 2 c
  if m.1 ≠ [96, 10] then .error "ValueError: de_string magic mismatch"
  else
    match readI16 m.2 with
    | .ok (len, c₂) =>
      if len < 0 then .error "struct.error: negative de_string length"
      else readExact len.toNat c₂
    | .error e => .error e

/-- One iteration step of `string_block` (header.py:469-477): read a u32
`crc`; stop (consuming it) when `255 > crc > 0`; otherwise read a
DE-string, split it on `:` and accumulate.  `fuel` bounds the recursion;
each iteration consumes at least four bytes, so `data.length + 1` fuel is
never exhausted before a read fails. -/
def string_block_loop :
    Nat → List (List (List Nat)) → Cursor → Except String (List (List (List Nat)) × Cursor)
  | 0, _, _ => .error "fuel exhausted"
  | fuel + 1, acc, c =>
    match readU32 c with
    | .error e => .error e
    | .ok (crc, c₁) =>
      if 0 < crc ∧ crc < 255 then .ok (acc, c₁)
      else
        match de_string c₁ with
        | .error e => .error e
        | .ok (s, c₂) => string_block_loop fuel (acc ++ [splitByte 58 s]) c₂

/-- `string_block` (header.py:469-477). -/
def string_block (c : Cursor) : Except String (List (List (List Nat)) × Cursor) :=
  string_block_loop (c.data.length + 1) [] c

/-- A value of the dynamically-typed Python output dictionaries.  Raw
integers are `vint`, canonical booleans `vbool`, byte strings `vbytes`,
floats kept as bits `vf32`, u32 lists `vnatList`, the Userpatch mod pair
`vpair`, and Python `None` is `vnone`. -/
inductive PValue where
  | vint (z : ℤ)
  | vbool (b : Bool)
  | vbytes (bs : List Nat)
  | vf32 (bits : Nat)
  | vnatList (l : List Nat)
  | vpair (major : ℤ) (minor : String)
  | vnone
deriving DecidableEq, Repr

/-- Whether an output value is a canonical Python boolean. -/
def PValue.isBool : PValue → Bool
  | .vbool _ => true
  | _ => false

/-- The minor component built by `parse_mod` (header.py:131):
`'.'.join(list(str(number % 1000)))` — the decimal digits of
`number % 1000` joined by dots.  Python `%` on a positive modulus is
`Int.emod`, which is non-negative. -/
def up_minor (number : ℤ) : String :=
  String.intercalate "." (((Int.emod number 1000).toNat.repr).data.map (fun ch => String.mk [ch]))

/-- The f32 array read of `parse_mod` (header.py:127): `resources` IEEE-754
singles, decoded as exact rationals; `acc` accumulates in reverse. -/
def readF32List (acc : List ℚ) : Nat → Cursor → Except String (List ℚ × Cursor)
  | 0, c => .ok (acc.reverse, c)
  | n + 1, c =>
    match readExact 4 c with
    | .error e => .error e
    | .ok (b, c₂) =>
      match decodeF32 (leNat b) with
      | some q => readF32List (q :: acc) n c₂
      | none => .error "non-finite f32 (not modelled)"

/-- The reads of `parse_mod` (header.py:124-127): skip
`2 + num_players + 36 + 5` pad bytes, read an `<h` name length, skip
`name_length + 1` bytes, read a u32 resource count plus one pad byte, then
read that many f32 resource values. -/
def parse_mod_values (numPlayers : Nat) (c : Cursor) : Except String (List ℚ × Cursor) :=
  match readExact (2 + numPlayers + 36 + 5) c with
  | .error e => .error e
  | .ok (_, c₁) =>
    match readI16 c₁ with
    | .error e => .error e
    | .ok (nameLength, c₂) =>
      if nameLength + 1 < 0 then .error "struct.error: negative pad count"
      else
        match readExact (nameLength + 1).toNat c₂ with
        | .error e => .error e
        | .ok (_, c₃) =>
          match readU32 c₃ with
          | .error e => .error e
          | .ok (resources, c₄) =>
            match readExact 1 c₄ with
            | .error e => .error e
            | .ok (_, c₅) => readF32List [] resources c₅

/-- `parse_mod` (header.py:122-131): peek the resource float array without
moving the cursor (the source seeks back to the saved position before
returning); for `USERPATCH15` return
`(number // 1000, '.'.join(list(str(number % 1000))))` with
`number = int(values[198])`; `None` for every other version. -/
def parse_mod (version : Version) (numPlayers : Nat) (c : Cursor) :
    Except String (Option (ℤ × String) × Cursor) :=
  match parse_mod_values numPlayers c with
  | .error e => .error e
  | .ok (values, _) =>
    if version = Version.USERPATCH15 then
      if h : 198 < values.length then
        let number := pyInt (values.get ⟨198, h⟩)
        .ok (some (Int.fdiv number 1000, up_minor number), c)
      else .error "IndexError: tuple index out of range"
    else .ok (none, c)

/-- ASCII bytes of `Gaia` (DE/HD editions). -/
def gaiaMixed : List Nat := [71, 97, 105, 97]

/-- ASCII bytes of `GAIA` (legacy editions). -/
def gaiaUpper : List Nat := [71, 65, 73, 65]

/-- The back-seek delta of `parse_players` (header.py:860-862): 43, except
`7 + num_players * 4` when `save >= 61.5`. -/
def parse_players_rev (save : ℚ) (numPlayers : Nat) : ℤ :=
  if mkRat 123 2 ≤ save then 7 + (numPlayers : ℤ) * 4 else 43

/-- The Gaia-anchor seek of `parse_players` (header.py:857-865): find
`05 00 + gaia + 00` in the rest of the buffer (`bytes.find`, `-1` when
absent) and seek to `cur + anchor - num_players - rev`.  A negative target
raises `ValueError` (`io.BytesIO.seek`). -/
def parse_players_seek (version : Version) (save : ℚ) (numPlayers : Nat) (c : Cursor) :
    Except String (Unit × Cursor) :=
  let gaia := if version = Version.DE ∨ version = Version.HD then gaiaMixed else gaiaUpper
  let anchor : ℤ := pyFind c.rest ([5, 0] ++ gaia ++ [0])
  let target : ℤ := (c.pos : ℤ) + anchor - numPlayers - parse_players_rev save numPlayers
  if target < 0 then .error "ValueError: negative seek"
  else .ok ((), seekTo target.toNat c)

/-- Whether a 26-byte window matches the `PLAYER_END` regular expression
(header.py:28): eight `ff` bytes, one arbitrary byte, sixteen `00` bytes,
then `0b`. -/
def playerEndMatch (seg : List Nat) : Bool :=
  seg.length == 26 && (seg.take 8).all (· == 255) &&
    ((seg.drop 9).take 16).all (· == 0) && seg.getD 25 0 == 11

/-- Leftmost match position of the `PLAYER_END` pattern (`re.search`). -/
def findPlayerEnd (l : List Nat) : Option Nat :=
  (List.range (l.length + 1)).find? (fun i => playerEndMatch ((l.drop i).take 26))

/-- The end-marker section of `parse_player` (header.py:169-191), entered
after the object blocks: when `save >= 37`, read a 100-byte window, take
the device byte at window offset 8 (an `IndexError` when fewer than nine
bytes remain), and search the window for `PLAYER_END`; when absent, search
the rest of the buffer; when still absent, raise unless this is the last
player.  Returns the device byte; the cursor ends just past the marker
when found, else at end of buffer. -/
def parse_player_end (save : ℚ) (playerNumber numPlayers : Nat) (c : Cursor) :
    Except String (Nat × Cursor) :=
  if (37 : ℚ) ≤ save then
    let w := c.rest.take 100
    if h : 8 < w.length then
      let device := w.get ⟨8, h⟩
      match findPlayerEnd w with
      | some m => .ok (device, seekTo (c.pos + m + 26) c)
      | none =>
        let offset₂ := c.pos + w.length
        let rest₂ := c.rest.drop w.length
        match findPlayerEnd rest₂ with
        | some m₂ => .ok (device, seekTo (offset₂ + m₂ + 26) c)
        | none =>
          if playerNumber < numPlayers - 1 then .error "could not find player end"
          else .ok (device, ⟨c.data, [], offset₂ + rest₂.length⟩)
    else .error "IndexError: index out of range"
  else .ok (0, c)

/-- The non-DE settings anchor of `parse_scenario` (header.py:421): the
IEEE-754 f64 little-endian bytes of 1.6. -/
def settingsAnchorNonDE : List Nat := [154, 153, 153, 153, 153, 153, 249, 63]

/-- The settings-version resynchronization of `parse_scenario`
(header.py:394-423): read the remainder, locate `pattern` with
`bytes.find` (which yields `-1` when the pattern is absent), add `delta`
(8 for DE, 13 otherwise) and seek relative from the end of the stream —
so the new absolute position is `remainder_start + find + delta`,
without any error when the anchor is missing. -/
def parse_scenario_seek (pattern : List Nat) (delta : Nat) (c : Cursor) :
    Except String (Unit × Cursor) :=
  let target : ℤ := (c.pos : ℤ) + pyFind c.rest pattern + delta
  if target < 0 then .error "ValueError: negative seek"
  else .ok ((), seekTo target.toNat c)

/-- The `parse_scenario` anchor step for non-DE editions (header.py:421-423). -/
def parse_scenario_seek_nonde (c : Cursor) : Except String (Unit × Cursor) :=
  parse_scenario_seek settingsAnchorNonDE 13 c

/-- The bit pattern of the f32 value `-1.0`, the sentinel `parse_version`
(header.py:842) tests for the new save-version format.  `-1.0` has exactly
one IEEE-754 single encoding, so the float equality test is a bit test. -/
def f32NegOneBits : Nat := 3212836864

/-- The header-side reads of `parse_version` (header.py:840-851): one
`unpack('<7sxf')` giving the 7-byte game tag and the raw f32 save version;
when the float equals `-1.0`, a u32 `s` follows and the save becomes
`37.0` when `s == 37`, else `s / 65536` (the exact rational
`mkRat s 65536`); the result is always rounded to two decimals — the
single value that is passed to the version classifier and returned for
every later threshold comparison. -/
def parse_version_core (c : Cursor) : Except String ((List Nat × ℚ) × Cursor) :=
  match readExact 12 c with
  | .error e => .error e
  | .ok (blk, c₁) =>
    let game := blk.take 7
    let bits := leNat ((blk.drop 8).take 4)
    if bits = f32NegOneBits then
      match readU32 c₁ with
      | .error e => .error e
      | .ok (s, c₂) =>
        .ok ((game, pyRound2 (if s = 37 then (37 : ℚ) else mkRat s 65536)), c₂)
    else
      match decodeF32 bits with
      | some q => .ok ((game, pyRound2 q), c₁)
      | none => .error "non-finite f32 (not modelled)"

/-- `parse_version` (header.py:835-851): the log version is a u32 from the
undecompressed stream; the game tag and rounded save version come from
`parse_version_core` on the decompressed header.  The external
`mgz.util.get_version` classifier consumes the same rounded save value
the function returns. -/
def parse_version (header data : Cursor) :
    Except String ((List Nat × ℚ × Nat) × Cursor × Cursor) :=
  match readU32 data with
  | .error e => .error e
  | .ok (log, d₂) =>
    match parse_version_core header with
    | .error e => .error e
    | .ok ((game, save), h₂) => .ok ((game, save, log), h₂, d₂)

/-- Raw fields read by `parse_lobby` (header.py:209-256) before the output
dictionary is built. -/
structure LobbyRaw where
  reveal_map_id : Nat
  map_size : Nat
  population : Nat
  game_type_id : ℤ
  lock_teams : ℤ
  chat : List (List Nat)
  seed : Option ℤ
deriving DecidableEq, Repr

/-- The chat loop of `parse_lobby` (header.py:248-251): each entry is a u32
length, that many bytes, both ends stripped of zero bytes; empty messages
are dropped.  `acc` accumulates in reverse. -/
def read_chat (acc : List (List Nat)) : Nat → Cursor → Except String (List (List Nat) × Cursor)
  | 0, c => .ok (acc.reverse, c)
  | n + 1, c =>
    match readU32 c with
    | .error e => .error e
    | .ok (len, c₁) =>
      let r := readUpTo len c₁
      let m := stripZeros r.1
      read_chat (if 0 < m.length then m :: acc else acc) n r.2

/-- The leading DE-only skips of `parse_lobby` (header.py:212-229). -/
def lobby_de_skips (save : ℚ) (c : Cursor) : Cursor :=
  let c := skipN 5 c
  let c := if mkRat 2006 100 ≤ save then skipN 9 c else c
  let c := if mkRat 2616 100 ≤ save then skipN 5 c else c
  let c := if (37 : ℚ) ≤ save then skipN 8 c else c
  let c := if mkRat 643 10 ≤ save then skipN 16 c else c
  if mkRat 663 10 ≤ save then skipN 1 c else c

/-- The post-field DE/HD skips of `parse_lobby` (header.py:237-244). -/
def lobby_mid_skips (save : ℚ) (c : Cursor) : Cursor :=
  let c := skipN 5 c
  let c := if mkRat 1313 100 ≤ save then skipN 4 c else c
  if mkRat 2522 100 ≤ save then skipN 1 c else c

/-- The reads of `parse_lobby` (header.py:209-256).  The 18-byte block is
`unpack('I4xIIbb')`: reveal-map u32, 4 pad, map-size u32, population u32,
game-type i8, lock-teams i8. -/
def parse_lobby_raw (version : Version) (save : ℚ) (c : Cursor) :
    Except String (LobbyRaw × Cursor) :=
  let c := if version = Version.DE then lobby_de_skips save c else c
  let c := skipN 8 c
  let c := if version ≠ Version.DE ∧ version ≠ Version.HD then skipN 1 c else c
  match readExact 18 c with
  | .error e => .error e
  | .ok (blk, c) =>
    let c := if version = Version.DE ∨ version = Version.HD then lobby_mid_skips save c else c
    match readU32 c with
    | .error e => .error e
    | .ok (chatCount, c) =>
      match read_chat [] chatCount c with
      | .error e => .error e
      | .ok (chat, c) =>
        match (if version = Version.DE then
                 match readI32 c with
                 | .error e => .error e
                 | .ok (s, c₂) => .ok (some s, c₂)
               else .ok (none, c) : Except String (Option ℤ × Cursor)) with
        | .error e => .error e
        | .ok (seed, c) =>
          .ok ({ reveal_map_id := leNat (blk.take 4),
                 map_size := leNat ((blk.drop 8).take 4),
                 population := leNat ((blk.drop 12).take 4),
                 game_type_id := asI8 (blk.getD 16 0),
                 lock_teams := asI8 (blk.getD 17 0),
                 chat := chat, seed := seed }, c)

/-- The public lobby record (header.py:257-265 and spec section 3). -/
structure LobbyRecord where
  reveal_map_id : PValue
  map_size : PValue
  population : PValue
  game_type_id : PValue
  lock_teams : PValue
  chat : List (List Nat)
  seed : PValue
deriving DecidableEq, Repr

/-- The output dictionary of `parse_lobby` (header.py:257-265): population
is scaled by 25 unless the version is DE or HD; `lock_teams` becomes the
boolean `lock_teams == 1`. -/
def mk_lobby (version : Version) (r : LobbyRaw) : LobbyRecord :=
  { reveal_map_id := .vint r.reveal_map_id,
    map_size := .vint r.map_size,
    population := .vint (r.population *
      (if version ≠ Version.DE ∧ version ≠ Version.HD then 25 else 1)),
    game_type_id := .vint r.game_type_id,
    lock_teams := .vbool (r.lock_teams == 1),
    chat := r.chat,
    seed := match r.seed with | some s => .vint s | none => .vnone }

/-- `parse_lobby` (header.py:209-265). -/
def parse_lobby (version : Version) (save : ℚ) (c : Cursor) :
    Except String (LobbyRecord × Cursor) :=
  match parse_lobby_raw version save c with
  | .error e => .error e
  | .ok (r, c₂) => .ok (mk_lobby version r, c₂)

/-- Raw fields read by `parse_map` (header.py:268-310). -/
structure MapRaw where
  size_x : Nat
  size_y : Nat
  zone_num : Nat
  all_visible : ℤ
  tiles : List (ℤ × ℤ)
  restore_time : Nat
deriving DecidableEq, Repr

/-- Tile layout selected by `parse_map` (header.py:271-278): byte width of
one tile record and the offsets of the two extracted signed bytes.
Legacy `<xbbx>`, DE pre-62 `<bxb6x>`, DE 62+ `<bxxb6x>`. -/
def tile_layout (version : Version) (save : ℚ) : Nat × Nat × Nat :=
  if version = Version.DE then
    if (62 : ℚ) ≤ save then (10, 0, 3) else (9, 0, 2)
  else (4, 1, 2)

/-- Read `n` tile records of the given layout; `acc` accumulates in
reverse. -/
def read_tiles (sz i j : Nat) (acc : List (ℤ × ℤ)) :
    Nat → Cursor → Except String (List (ℤ × ℤ) × Cursor)
  | 0, c => .ok (acc.reverse, c)
  | n + 1, c =>
    match readExact sz c with
    | .error e => .error e
    | .ok (b, c₂) => read_tiles sz i j ((asI8 (b.getD i 0), asI8 (b.getD j 0)) :: acc) n c₂

/-- The zone loop of `parse_map` (header.py:284-292). -/
def map_zones (version : Version) (tileNum : Nat) : Nat → Cursor → Except String Cursor
  | 0, c => .ok c
  | n + 1, c =>
    let c := if version = Version.DE ∨ version = Version.HD then skipN (2048 + tileNum * 2) c
             else skipN (1275 + tileNum) c
    match readU32 c with
    | .error e => .error e
    | .ok (nf, c₂) => map_zones version tileNum n (skipN 4 (skipN (nf * 4) c₂))

/-- The obstruction loop of `parse_map` (header.py:300-302). -/
def map_obstructions : Nat → Cursor → Except String Cursor
  | 0, c => .ok c
  | n + 1, c =>
    match readU32 c with
    | .error e => .error e
    | .ok (no, c₂) => map_obstructions n (skipN (no * 8) c₂)

/-- The reads of `parse_map` (header.py:268-310).  The 12-byte block is
`unpack('<III')`; the 2-byte block `unpack('<bx')`; the 8-byte blocks
`unpack('<I4x')` and `unpack('<II')`. -/
def parse_map_raw (version : Version) (save : ℚ) (c : Cursor) :
    Except String (MapRaw × Cursor) :=
  let c := if version = Version.DE then skipN 8 c else c
  match readExact 12 c with
  | .error e => .error e
  | .ok (wh, c) =>
    let sizeX := leNat (wh.take 4)
    let sizeY := leNat ((wh.drop 4).take 4)
    let zoneNum := leNat (wh.drop 8)
    let tileNum := sizeX * sizeY
    match map_zones version tileNum zoneNum c with
    | .error e => .error e
    | .ok c =>
      match readExact 2 c with
      | .error e => .error e
      | .ok (av, c) =>
        let tl := tile_layout version save
        match read_tiles tl.1 tl.2.1 tl.2.2 [] tileNum c with
        | .error e => .error e
        | .ok (tiles, c) =>
          match readExact 8 c with
          | .error e => .error e
          | .ok (nd, c) =>
            let numData := leNat (nd.take 4)
            match map_obstructions numData (skipN (numData * 4) c) with
            | .error e => .error e
            | .ok c =>
              match readExact 8 c with
              | .error e => .error e
              | .ok (xy, c) =>
                let x2 := leNat (xy.take 4)
                let y2 := leNat (xy.drop 4)
                let c := skipN (x2 * y2 * 4) c
                let c := if mkRat 123 2 ≤ save then skipN (x2 * y2 * 4) c else c
                match readU32 c with
                | .error e => .error e
                | .ok (restore, c) =>
                  .ok ({ size_x := sizeX, size_y := sizeY, zone_num := zoneNum,
                         all_visible := asI8 (av.getD 0 0), tiles := tiles,
                         restore_time := restore }, c)

/-- The public map record (header.py:311-316 and spec section 3). -/
structure MapRecord where
  all_visible : PValue
  restore_time : PValue
  dimension : PValue
  tiles : List (ℤ × ℤ)
deriving DecidableEq, Repr

/-- The output dictionary of `parse_map` (header.py:311-316): `all_visible`
becomes the boolean `all_visible == 1`. -/
def mk_map (r : MapRaw) : MapRecord :=
  { all_visible := .vbool (r.all_visible == 1),
    restore_time := .vint r.restore_time,
    dimension := .vint r.size_x,
    tiles := r.tiles }

/-- `parse_map` (header.py:268-316). -/
def parse_map (version : Version) (save : ℚ) (c : Cursor) :
    Except String (MapRecord × Cursor) :=
  match parse_map_raw version save c with
  | .error e => .error e
  | .ok (r, c₂) => .ok (mk_map r, c₂)

/-- Raw fields read by `parse_metadata` (header.py:889-921). -/
structure MetaRaw where
  speedBits : Nat
  owner_id : ℤ
  num_players : ℤ
  cheats : ℤ
deriving DecidableEq, Repr

/-- Leftmost position of a run of 4096 zero bytes (`re.search(b'\x00'*4096)`,
header.py:903-905). -/
def find_ai_end (l : List Nat) : Option Nat :=
  (List.range (l.length + 1)).find?
    (fun i => decide (i + 4096 ≤ l.length) && ((l.drop i).take 4096).all (· == 0))

/-- The reads of `parse_metadata` (header.py:889-921): a u32 AI flag; when
non-zero the AI blob is skipped by searching for 4096 consecutive zero
bytes (absence is fatal); then the 50-byte block `unpack('<24xf17xhbxb')`
(f32 speed at offset 24, i16 owner at 45, i8 player count at 47, i8 cheats
at 49) and a version-keyed pad skip.  A negative `num_players` would make
Python read to end of stream; the skip length uses the non-negative part,
which is identical for every meaningful value. -/
def parse_metadata_raw (save : ℚ) (skipAi : Bool) (c : Cursor) :
    Except String (MetaRaw × Cursor) :=
  match readU32 c with
  | .error e => .error e
  | .ok (ai, c) =>
    match (if 0 < ai then
             if ¬ skipAi then .error "dont know how to parse ai"
             else
               match find_ai_end c.rest with
               | none => .error "could not find ai end"
               | some i => .ok (seekTo (c.pos + i + 4096) c)
           else .ok c : Except String Cursor) with
    | .error e => .error e
    | .ok c =>
      match readExact 50 c with
      | .error e => .error e
      | .ok (blk, c) =>
        let numPlayers := asI8 (blk.getD 47 0)
        let c := if save < mkRat 123 2 then skipN 60 c
                 else skipN (24 + numPlayers.toNat * 4) c
        .ok ({ speedBits := leNat ((blk.drop 24).take 4),
               owner_id := asI16 ((blk.drop 45).take 2),
               num_players := numPlayers,
               cheats := asI8 (blk.getD 49 0) }, c)

/-- The public metadata record (header.py:923-927). -/
structure MetadataRecord where
  speed : PValue
  owner_id : PValue
  cheats : PValue
deriving DecidableEq, Repr

/-- The output dictionary of `parse_metadata` (header.py:923-927): `cheats`
becomes the boolean `cheats == 1`. -/
def mk_metadata (r : MetaRaw) : MetadataRecord :=
  { speed := .vf32 r.speedBits, owner_id := .vint r.owner_id,
    cheats := .vbool (r.cheats == 1) }

/-- `parse_metadata` (header.py:889-927): the record plus the player count. -/
def parse_metadata (save : ℚ) (skipAi : Bool) (c : Cursor) :
    Except String ((MetadataRecord × ℤ) × Cursor) :=
  match parse_metadata_raw save skipAi c with
  | .error e => .error e
  | .ok (r, c₂) => .ok ((mk_metadata r, r.num_players), c₂)

/-- Raw fields of the head of `parse_de` (header.py:486-553): everything up
to the player-slot loop. -/
structure DEHead where
  build : Option Nat
  timestamp1 : Option Nat
  dlcIds : List Nat
  mapDimension : Option Nat
  difficulty : Nat
  rmsMapId : Nat
  victory : Nat
  resourcesId : Nat
  startAge : Nat
  endAge : Nat
  speedBits : Nat
  treaty : Nat
  popLimit : Nat
  numPlayers : Nat
  randomPositions : ℤ
  allTechnologies : ℤ
  lockTeams : ℤ
  lockSpeed : ℤ
  multiplayer : ℤ
  cheats : ℤ
  recordGame : ℤ
  animalsEnabled : ℤ
  predatorsEnabled : ℤ
  turboEnabled : ℤ
  sharedExploration : ℤ
  teamPositions : ℤ
deriving DecidableEq, Repr

/-- A u32 read performed only under `cond` (the optional `build` and
`timestamp` reads of header.py:487-493). -/
def readU32When (cond : Bool) (c : Cursor) : Except String (Option Nat × Cursor) :=
  if cond then
    match readU32 c with
    | .ok (v, c₂) => .ok (some v, c₂)
    | .error e => .error e
  else .ok (none, c)

/-- The fixed 76-byte run of `parse_de` after the DLC list
(header.py:502-526): `4 pad, u32 d1, 4 pad, u32 rms_map_id, 4 pad,
u32 victory, u32 resources, u32 start_age, u32 end_age, 12 pad, f32 speed,
u32 treaty, u32 population, u32 num_players, 14 pad`.  The u32 at offset 4
is `map_dimension` when `save >= 61.5` and the difficulty id otherwise.
The pads are `data.read` calls, merged here with the adjacent `unpack`
reads: on a stream this short every following `unpack` fails anyway, so
the merged exact read fails on the same inputs the source does. -/
def parse_de_fixed (c : Cursor) : Except String (List Nat × Cursor) :=
  readExact 78 c

/-- The ten one-byte flag reads of header.py:533-542, after the
`unpack('<bb')` pair and one pad byte of header.py:531-532. -/
def parse_de_flags (c : Cursor) : Except String (List ℤ × Cursor) :=
  match readExact 10 c with
  | .error e => .error e
  | .ok (b, c₂) => .ok (b.map asI8, c₂)

/-- The head reads of `parse_de` (header.py:486-553). -/
def parse_de_head (save : ℚ) (skip : Bool) (c : Cursor) :
    Except String (DEHead × Cursor) :=
  match readU32When (decide (mkRat 2522 100 ≤ save) && !skip) c with
  | .error e => .error e
  | .ok (build, c) =>
    match readU32When (decide (mkRat 2616 100 ≤ save) && !skip) c with
    | .error e => .error e
    | .ok (ts1, c) =>
      let c := skipN 12 c
      match readU32 c with
      | .error e => .error e
      | .ok (dlcCount, c) =>
        match readU32List [] dlcCount c with
        | .error e => .error e
        | .ok (dlcIds, c) =>
          match parse_de_fixed c with
          | .error e => .error e
          | .ok (blk, c) =>
            let d1 := leNat ((blk.drop 4).take 4)
            match (if mkRat 123 2 ≤ save then readU8 c
                   else .ok (d1, c) : Except String (Nat × Cursor)) with
            | .error e => .error e
            | .ok (difficulty, c) =>
              match readExact 2 c with
              | .error e => .error e
              | .ok (rb, c) =>
                let c := skipN 1 c
                match parse_de_flags c with
                | .error e => .error e
                | .ok (flags, c) =>
                  let c := skipN 12 c
                  let c := if mkRat 2506 100 ≤ save then skipN 1 c else c
                  let c := if (50 : ℚ) < save then skipN 1 c else c
                  .ok ({ build := build, timestamp1 := ts1, dlcIds := dlcIds,
                         mapDimension := if mkRat 123 2 ≤ save then some d1 else none,
                         difficulty := difficulty,
                         rmsMapId := leNat ((blk.drop 12).take 4),
                         victory := leNat ((blk.drop 20).take 4),
                         resourcesId := leNat ((blk.drop 24).take 4),
                         startAge := leNat ((blk.drop 28).take 4),
                         endAge := leNat ((blk.drop 32).take 4),
                         speedBits := leNat ((blk.drop 48).take 4),
                         treaty := leNat ((blk.drop 52).take 4),
                         popLimit := leNat ((blk.drop 56).take 4),
                         numPlayers := leNat ((blk.drop 60).take 4),
                         randomPositions := asI8 (rb.getD 0 0),
                         allTechnologies := asI8 (rb.getD 1 0),
                         lockTeams := flags.getD 0 0,
                         lockSpeed := flags.getD 1 0,
                         multiplayer := flags.getD 2 0,
                         cheats := flags.getD 3 0,
                         recordGame := flags.getD 4 0,
                         animalsEnabled := flags.getD 5 0,
                         predatorsEnabled := flags.getD 6 0,
                         turboEnabled := flags.getD 7 0,
                         sharedExploration := flags.getD 8 0,
                         teamPositions := flags.getD 9 0 }, c)

/-- Raw fields of one DE player slot (header.py:555-593). -/
structure SlotRaw where
  color : ℤ
  team : ℤ
  civ : Nat
  customCiv : Option (List Nat)
  aiName : List Nat
  name : List Nat
  censored : Option (List Nat)
  ptype : Nat
  profile : Nat
  number : ℤ
  prefer : ℤ
deriving DecidableEq, Repr

/-- The custom-civilization reads of one slot (header.py:563-570): when
`save >= 61.5` a count is read; its entries are read only when
`save >= 63.0` and the count is positive (the source leaves the selection
`None` without consuming entries otherwise). -/
def parse_de_custom_civ (save : ℚ) (c : Cursor) :
    Except String (Option (List Nat) × Cursor) :=
  if mkRat 123 2 ≤ save then
    match readU32 c with
    | .error e => .error e
    | .ok (cnt, c₂) =>
      if (63 : ℚ) ≤ save ∧ 0 < cnt then
        match readU32List [] cnt c₂ with
        | .error e => .error e
        | .ok (sel, c₃) => .ok (some sel, c₃)
      else .ok (none, c₂)
  else .ok (none, c)

/-- A DE-string read performed only under `cond` (the optional
`censored_name` of header.py:574-576). -/
def deStringWhen (cond : Bool) (c : Cursor) : Except String (Option (List Nat) × Cursor) :=
  if cond then
    match de_string c with
    | .ok (s, c₂) => .ok (some s, c₂)
    | .error e => .error e
  else .ok (none, c)

/-- A DE-string whose value is discarded. -/
def deStringSkip (c : Cursor) : Except String Cursor :=
  match de_string c with
  | .ok (_, c₂) => .ok c₂
  | .error e => .error e

/-- The reads of one DE player slot (header.py:555-593).  The 12-byte block
is `unpack('<I4xi')`: profile id, 4 pad, slot number. -/
def parse_de_slot_raw (save : ℚ) (c : Cursor) : Except String (SlotRaw × Cursor) :=
  let c := skipN 4 c
  match readI32 c with
  | .error e => .error e
  | .ok (color, c) =>
    let c := skipN 2 c
    match readI8 c with
    | .error e => .error e
    | .ok (team, c) =>
      let c := skipN 9 c
      match readU32 c with
      | .error e => .error e
      | .ok (civ, c) =>
        match parse_de_custom_civ save c with
        | .error e => .error e
        | .ok (customCiv, c) =>
          match deStringSkip c with
          | .error e => .error e
          | .ok c =>
            let c := skipN 1 c
            match de_string c with
            | .error e => .error e
            | .ok (aiName, c) =>
              match deStringWhen (decide (mkRat 663 10 ≤ save)) c with
              | .error e => .error e
              | .ok (censored, c) =>
                match de_string c with
                | .error e => .error e
                | .ok (name, c) =>
                  match readU32 c with
                  | .error e => .error e
                  | .ok (ptype, c) =>
                    match readExact 12 c with
                    | .error e => .error e
                    | .ok (blk, c) =>
                      let c := if save < mkRat 2522 100 then skipN 8 c else c
                      match readI8 c with
                      | .error e => .error e
                      | .ok (prefer, c) =>
                        let c := skipN 1 c
                        let c := if mkRat 2506 100 ≤ save then skipN 8 c else c
                        let c := if mkRat 643 10 ≤ save then skipN 4 c else c
                        match (if mkRat 672 10 ≤ save then deStringSkip c
                               else .ok c : Except String Cursor) with
                        | .error e => .error e
                        | .ok c =>
                          .ok ({ color := color, team := team, civ := civ,
                                 customCiv := customCiv, aiName := aiName,
                                 name := name, censored := censored,
                                 ptype := ptype,
                                 profile := leNat (blk.take 4),
                                 number := asSigned 32 (leNat (blk.drop 8)),
                                 prefer := prefer }, c)

/-- One DE player-slot dictionary (header.py:595-607). -/
structure DESlot where
  number : PValue
  color_id : PValue
  team_id : PValue
  ai_name : PValue
  name : PValue
  censored_name : PValue
  type : PValue
  profile_id : PValue
  civilization_id : PValue
  custom_civ_selection : PValue
  prefer_random : PValue
deriving DecidableEq, Repr

/-- The slot dictionary literal (header.py:595-607): `censored_name` is the
read DE-string when `save >= 66.3`, else the `name`; `prefer_random`
becomes the boolean `prefer_random == 1`. -/
def mk_slot (save : ℚ) (r : SlotRaw) : DESlot :=
  { number := .vint r.number,
    color_id := .vint r.color,
    team_id := .vint r.team,
    ai_name := .vbytes r.aiName,
    name := .vbytes r.name,
    censored_name := if mkRat 663 10 ≤ save then .vbytes (r.censored.getD []) else .vbytes r.name,
    type := .vint r.ptype,
    profile_id := .vint r.profile,
    civilization_id := .vint r.civ,
    custom_civ_selection := match r.customCiv with | some l => .vnatList l | none => .vnone,
    prefer_random := .vbool (r.prefer == 1) }

/-- One slot: raw reads followed by the dictionary literal. -/
def parse_de_slot (save : ℚ) (c : Cursor) : Except String (DESlot × Cursor) :=
  match parse_de_slot_raw save c with
  | .error e => .error e
  | .ok (r, c₂) => .ok (mk_slot save r, c₂)

/-- The slot loop of `parse_de` (header.py:554-607), in read order; `acc`
accumulates in reverse. -/
def parse_de_slots (save : ℚ) (acc : List DESlot) :
    Nat → Cursor → Except String (List DESlot × Cursor)
  | 0, c => .ok (acc.reverse, c)
  | n + 1, c =>
    match parse_de_slot save c with
    | .error e => .error e
    | .ok (s, c₂) => parse_de_slots save (s :: acc) n c₂

/-- The empty-slot skip loop body (header.py:613-623). -/
def parse_de_empty_slot (save : ℚ) (c : Cursor) : Except String Cursor :=
  let c := if mkRat 123 2 ≤ save then skipN 4 c else c
  let c := skipN 12 c
  match deStringSkip c with
  | .error e => .error e
  | .ok c =>
    let c := skipN 1 c
    match deStringSkip c with
    | .error e => .error e
    | .ok c =>
      match deStringSkip c with
      | .error e => .error e
      | .ok c =>
        let c := skipN 38 c
        .ok (if mkRat 643 10 ≤ save then skipN 4 c else c)

/-- The empty-slot skip loop iterations. -/
def parse_de_empty_loop (save : ℚ) : Nat → Cursor → Except String Cursor
  | 0, c => .ok c
  | n + 1, c =>
    match parse_de_empty_slot save c with
    | .error e => .error e
    | .ok c₂ => parse_de_empty_loop save n c₂

/-- The empty-slot skip loop (header.py:610-624): only when
`37 <= save < 66.3`, for the `8 - num_players` unused slots. -/
def parse_de_empty_slots (save : ℚ) (numPlayers : Nat) (c : Cursor) :
    Except String Cursor :=
  if (37 : ℚ) ≤ save ∧ save < mkRat 663 10 then parse_de_empty_loop save (8 - numPlayers) c
  else .ok c

/-- Middle fields of `parse_de` (header.py:625-667). -/
structure DEMid where
  rated : ℤ
  allowSpecs : ℤ
  visibility : Nat
  hiddenCivs : ℤ
  specDelay : Nat
  strings : List (List (List Nat))
  guid : List Nat
  lobby : List Nat
  modName : List Nat
deriving DecidableEq, Repr

/-- Accumulate `n` further string blocks (header.py:638-639). -/
def string_blocks (acc : List (List (List Nat))) :
    Nat → Cursor → Except String (List (List (List Nat)) × Cursor)
  | 0, c => .ok (acc, c)
  | n + 1, c =>
    match string_block c with
    | .error e => .error e
    | .ok (s, c₂) => string_blocks (acc ++ s) n c₂

/-- The unknown-entry loop (header.py:652-655). -/
def de_unknown_entries : Nat → Cursor → Except String Cursor
  | 0, c => .ok c
  | n + 1, c =>
    match deStringSkip (skipN 4 c) with
    | .error e => .error e
    | .ok c₂ => de_unknown_entries n (skipN 4 c₂)

/-- `data.seek(-4, 1)` (header.py:646): relative back-seek; a negative
resulting position raises `ValueError`. -/
def seekBack4 (c : Cursor) : Except String Cursor :=
  if c.pos < 4 then .error "ValueError: negative seek"
  else .ok (seekTo (c.pos - 4) c)

/-- The combined `save`-keyed unknown-list step of header.py:643-649:
skip 236 when `save < 25.22`; when `25.22 <= save`, back-seek 4, read a
u32 length and skip that many u32s. -/
def de_unknown_list (save : ℚ) (c : Cursor) : Except String Cursor :=
  let c := if save < mkRat 2522 100 then skipN 236 c else c
  if mkRat 2522 100 ≤ save then
    match seekBack4 c with
    | .error e => .error e
    | .ok c₂ =>
      match readU32 c₂ with
      | .error e => .error e
      | .ok (l, c₃) => .ok (skipN (l * 4) c₃)
  else .ok c

/-- The middle reads of `parse_de` (header.py:625-667).  The 16 guid bytes
are read exactly: a short stream would make `uuid.UUID(bytes=...)` raise
`ValueError` at header.py:720. -/
def parse_de_mid (save : ℚ) (c : Cursor) : Except String (DEMid × Cursor) :=
  let c := skipN 4 c
  match readI8 c with
  | .error e => .error e
  | .ok (rated, c) =>
    match readI8 c with
    | .error e => .error e
    | .ok (allowSpecs, c) =>
      match readU32 c with
      | .error e => .error e
      | .ok (visibility, c) =>
        match readI8 c with
        | .error e => .error e
        | .ok (hiddenCivs, c) =>
          let c := skipN 1 c
          match readU32 c with
          | .error e => .error e
          | .ok (specDelay, c) =>
            let c := skipN 1 c
            match string_block c with
            | .error e => .error e
            | .ok (s0, c) =>
              let c := skipN 8 c
              match string_blocks s0 20 c with
              | .error e => .error e
              | .ok (strings, c) =>
                let c := skipN 4 c
                match de_unknown_list save c with
                | .error e => .error e
                | .ok c =>
                  match readU64 c with
                  | .error e => .error e
                  | .ok (unknownEntries, c) =>
                    match de_unknown_entries unknownEntries c with
                    | .error e => .error e
                    | .ok c =>
                      let c := if mkRat 2502 100 ≤ save then skipN 8 c else c
                      match readExact 16 c with
                      | .error e => .error e
                      | .ok (guid, c) =>
                        match de_string c with
                        | .error e => .error e
                        | .ok (lobby, c) =>
                          let c := if mkRat 2522 100 ≤ save then skipN 8 c else c
                          match de_string c with
                          | .error e => .error e
                          | .ok (modName, c) =>
                            .ok ({ rated := rated, allowSpecs := allowSpecs,
                                   visibility := visibility, hiddenCivs := hiddenCivs,
                                   specDelay := specDelay, strings := strings,
                                   guid := guid, lobby := lobby,
                                   modName := modName }, c)

/-- The `save >= 66.3` extra block of header.py:699-703: a u32 count, 12
bytes, then `count` u32s. -/
def de_tail_663 (save : ℚ) (c : Cursor) : Except String Cursor :=
  if mkRat 663 10 ≤ save then
    match readU32 c with
    | .error e => .error e
    | .ok (cnt, c₂) => .ok (skipN (cnt * 4) (skipN 12 c₂))
  else .ok c

/-- The tail reads of `parse_de` (header.py:668-710): the threshold-keyed
skips and, when `not skip and save >= 37`, the final `(timestamp, x)`
u32 pair (which overwrites the early timestamp). -/
def parse_de_tail (save : ℚ) (skip : Bool) (c : Cursor) :
    Except String (Option (Nat × Nat) × Cursor) :=
  let c := skipN 33 c
  let c := if mkRat 2006 100 ≤ save then skipN 1 c else c
  let c := if mkRat 2016 100 ≤ save then skipN 8 c else c
  let c := if mkRat 2506 100 ≤ save then skipN 21 c else c
  let c := if mkRat 2522 100 ≤ save then skipN 4 c else c
  let c := if mkRat 2616 100 ≤ save then skipN 8 c else c
  let c := if (37 : ℚ) ≤ save then skipN 3 c else c
  let c := if (50 : ℚ) < save then skipN 8 c else c
  let c := if mkRat 123 2 ≤ save then skipN 1 c else c
  let c := if (63 : ℚ) ≤ save then skipN 5 c else c
  match de_tail_663 save c with
  | .error e => .error e
  | .ok c =>
    match (if skip then .ok c else deStringSkip c : Except String Cursor) with
    | .error e => .error e
    | .ok c =>
      match (if mkRat 672 10 ≤ save then
               match deStringSkip c with
               | .error e => .error e
               | .ok c₂ => deStringSkip c₂
             else .ok c : Except String Cursor) with
      | .error e => .error e
      | .ok c =>
        let c := skipN 8 c
        if ¬ skip ∧ (37 : ℚ) ≤ save then
          match readU32 c with
          | .error e => .error e
          | .ok (t, c₂) =>
            match readU32 c₂ with
            | .error e => .error e
            | .ok (x, c₃) => .ok (some (t, x), c₃)
        else .ok (none, c)

/-- ASCII bytes of `SUBSCRIBEDMODS`. -/
def subscribedModsBytes : List Nat := "SUBSCRIBEDMODS".data.map Char.toNat

/-- ASCII bytes of `RANDOM_MAPS`. -/
def randomMapsBytes : List Nat := "RANDOM_MAPS".data.map Char.toNat

/-- One step of the string-table scan (header.py:714-717): on a
`SUBSCRIBEDMODS`/`RANDOM_MAPS` entry, `rms_mod_id` is the part of field 3
before the first underscore and `rms_filename` is field 2; indexing a
too-short entry raises `IndexError`.  Later matches overwrite earlier
ones. -/
def find_rms_step (acc : Option (List Nat) × Option (List Nat)) (s : List (List Nat)) :
    Except String (Option (List Nat) × Option (List Nat)) :=
  if s.getD 0 [] = subscribedModsBytes then
    if h₁ : 1 < s.length then
      if s.get ⟨1, h₁⟩ = randomMapsBytes then
        if h₃ : 3 < s.length then
          .ok (some ((splitByte 95 (s.get ⟨3, h₃⟩)).getD 0 []),
               some (s.get ⟨2, by omega⟩))
        else .error "IndexError: list index out of range"
      else .ok acc
    else .error "IndexError: list index out of range"
  else .ok acc

/-- The string-table scan of `parse_de` (header.py:712-717). -/
def find_rms : List (List (List Nat)) →
    (Option (List Nat) × Option (List Nat)) →
    Except String (Option (List Nat) × Option (List Nat))
  | [], acc => .ok acc
  | s :: rest, acc =>
    match find_rms_step acc s with
    | .error e => .error e
    | .ok acc₂ => find_rms rest acc₂

/-- All raw data gathered by `parse_de` before its output dictionary. -/
structure DERaw where
  head : DEHead
  players : List DESlot
  mid : DEMid
  tailTs : Option (Nat × Nat)
  rmsModId : Option (List Nat)
  rmsFilename : Option (List Nat)
deriving DecidableEq, Repr

/-- The full read sequence of `parse_de` (header.py:486-717): head, player
slots (`num_players` of them when `37 <= save < 66.3`, else 8), the
12-byte pad and empty-slot skips, the middle block, the tail skips, and
the string-table scan. -/
def parse_de_raw (save : ℚ) (skip : Bool) (c : Cursor) : Except String (DERaw × Cursor) :=
  match parse_de_head save skip c with
  | .error e => .error e
  | .ok (head, c) =>
    match parse_de_slots save []
      (if (37 : ℚ) ≤ save ∧ save < mkRat 663 10 then head.numPlayers else 8) c with
    | .error e => .error e
    | .ok (players, c) =>
      let c := skipN 12 c
      match parse_de_empty_slots save head.numPlayers c with
      | .error e => .error e
      | .ok c =>
        match parse_de_mid save c with
        | .error e => .error e
        | .ok (mid, c) =>
          match parse_de_tail save skip c with
          | .error e => .error e
          | .ok (tailTs, c) =>
            match find_rms mid.strings (none, none) with
            | .error e => .error e
            | .ok rms =>
              .ok ({ head := head, players := players, mid := mid,
                     tailTs := tailTs, rmsModId := rms.1,
                     rmsFilename := rms.2 }, c)

/-- The public DE record (header.py:718-755).  The `hash` entry (a SHA-1
object over the guid bytes) is not modelled: it is an opaque digest never
inspected by the parser; `guid` carries the raw 16 bytes that both
entries are built from. -/
structure DERecord where
  players : List DESlot
  guid : PValue
  lobby : PValue
  mod : PValue
  difficulty_id : PValue
  victory_type_id : PValue
  starting_resources_id : PValue
  starting_age_id : PValue
  ending_age_id : PValue
  speed : PValue
  population_limit : PValue
  treaty_length : PValue
  team_together : PValue
  all_technologies : PValue
  lock_teams : PValue
  lock_speed : PValue
  multiplayer : PValue
  cheats : PValue
  record_game : PValue
  animals_enabled : PValue
  predators_enabled : PValue
  turbo_enabled : PValue
  shared_exploration : PValue
  team_positions : PValue
  build : PValue
  timestamp : PValue
  spec_delay : PValue
  rated : PValue
  allow_specs : PValue
  hidden_civs : PValue
  visibility_id : PValue
  rms_mod_id : PValue
  rms_map_id : PValue
  rms_filename : PValue
  dlc_ids : PValue
deriving DecidableEq, Repr

/-- The output dictionary literal of `parse_de` (header.py:718-755):
`team_together = not bool(random_positions)`; the age ids are decremented
by 2 when positive, else 0; `rated = (rated == 1)`; every other
boolean-named entry is `bool(raw)`, i.e. `raw != 0`. -/
def mk_de (r : DERaw) : DERecord :=
  { players := r.players,
    guid := .vbytes r.mid.guid,
    lobby := .vbytes r.mid.lobby,
    mod := .vbytes r.mid.modName,
    difficulty_id := .vint r.head.difficulty,
    victory_type_id := .vint r.head.victory,
    starting_resources_id := .vint r.head.resourcesId,
    starting_age_id := .vint (if 0 < r.head.startAge then (r.head.startAge : ℤ) - 2 else 0),
    ending_age_id := .vint (if 0 < r.head.endAge then (r.head.endAge : ℤ) - 2 else 0),
    speed := .vf32 r.head.speedBits,
    population_limit := .vint r.head.popLimit,
    treaty_length := .vint r.head.treaty,
    team_together := .vbool (r.head.randomPositions == 0),
    all_technologies := .vbool (r.head.allTechnologies != 0),
    lock_teams := .vbool (r.head.lockTeams != 0),
    lock_speed := .vbool (r.head.lockSpeed != 0),
    multiplayer := .vbool (r.head.multiplayer != 0),
    cheats := .vbool (r.head.cheats != 0),
    record_game := .vbool (r.head.recordGame != 0),
    animals_enabled := .vbool (r.head.animalsEnabled != 0),
    predators_enabled := .vbool (r.head.predatorsEnabled != 0),
    turbo_enabled := .vbool (r.head.turboEnabled != 0),
    shared_exploration := .vbool (r.head.sharedExploration != 0),
    team_positions := .vbool (r.head.teamPositions != 0),
    build := match r.head.build with | some b => .vint b | none => .vnone,
    timestamp := match r.tailTs with
      | some (t, _) => .vint t
      | none => match r.head.timestamp1 with | some t => .vint t | none => .vnone,
    spec_delay := .vint r.mid.specDelay,
    rated := .vbool (r.mid.rated == 1),
    allow_specs := .vbool (r.mid.allowSpecs != 0),
    hidden_civs := .vbool (r.mid.hiddenCivs != 0),
    visibility_id := .vint r.mid.visibility,
    rms_mod_id := match r.rmsModId with | some b => .vbytes b | none => .vnone,
    rms_map_id := .vint r.head.rmsMapId,
    rms_filename := match r.rmsFilename with | some b => .vbytes b | none => .vnone,
    dlc_ids := .vnatList r.head.dlcIds }

/-- `parse_de` (header.py:480-755): `None` for non-DE versions, else the
record built from the full read sequence. -/
def parse_de (version : Version) (save : ℚ) (skip : Bool) (c : Cursor) :
    Except String (Option DERecord × Cursor) :=
  if version ≠ Version.DE then .ok (none, c)
  else
    match parse_de_raw save skip c with
    | .ok (raw, c₂) => .ok (some (mk_de raw), c₂)
    | .error e => .error e

/-- The `mod` entry of the top-level result dictionary (header.py:977):
`de.get('dlc_ids') if de else mod`.  A present DE record is a non-empty
dictionary, hence truthy; `de` is `None` exactly for non-DE versions, in
which case the `parse_mod` pair (or `None`) is used. -/
def parse_result_mod (de : Option DERecord) (modPair : Option (ℤ × String)) : PValue :=
  match de with
  | some d => d.dlc_ids
  | none =>
    match modPair with
    | some (a, b) => .vpair a b
    | none => .vnone

/-- A minimal DE-string: magic `60 0a` and zero length. -/
def deStr0 : List Nat := [96, 10, 0, 0]

/-- The DE-string `AB`: magic `60 0a`, length 2, bytes `A` `B`. -/
def deStrAB : List Nat := [96, 10, 2, 0, 65, 66]

/-- Concrete bytes of one DE player slot for save version 13. -/
def deSlotBytes : List Nat :=
  List.replicate 4 0 ++ [1, 0, 0, 0] ++ [0, 0] ++ [2] ++ List.replicate 9 0 ++ [5, 0, 0, 0]
    ++ deStr0 ++ [0] ++ deStr0 ++ deStrAB ++ [1, 0, 0, 0]
    ++ [7, 0, 0, 0] ++ [0, 0, 0, 0] ++ [3, 0, 0, 0] ++ List.replicate 8 0 ++ [1] ++ [0]

/-- Concrete bytes of the `parse_de` head for save version 13. -/
def deHeadBytes : List Nat :=
  List.replicate 12 0 ++ [2, 0, 0, 0] ++ [3, 0, 0, 0] ++ [5, 0, 0, 0]
    ++ List.replicate 4 0 ++ [1, 0, 0, 0] ++ List.replicate 4 0 ++ [9, 0, 0, 0]
    ++ List.replicate 4 0
    ++ [0, 0, 0, 0] ++ [0, 0, 0, 0] ++ [4, 0, 0, 0] ++ [6, 0, 0, 0]
    ++ List.replicate 12 0 ++ [0, 0, 0, 0] ++ [0, 0, 0, 0] ++ [200, 0, 0, 0] ++ [2, 0, 0, 0]
    ++ List.replicate 14 0 ++ [1, 0] ++ [0] ++ [1, 0, 1, 0, 1, 0, 1, 0, 1, 0]
    ++ List.replicate 12 0

/-- Concrete bytes of the `parse_de` middle block for save version 13. -/
def deMidBytes : List Nat :=
  List.replicate 4 0 ++ [1] ++ [1] ++ [1, 0, 0, 0] ++ [0] ++ [0] ++ [3, 0, 0, 0] ++ [0]
    ++ [1, 0, 0, 0] ++ List.replicate 8 0 ++ List.flatten (List.replicate 20 [1, 0, 0, 0])
    ++ List.replicate 4 0 ++ List.replicate 236 0 ++ List.replicate 8 0
    ++ List.replicate 16 0 ++ deStr0 ++ deStr0

/-- Concrete bytes of the `parse_de` tail for save version 13 with
`skip = false`. -/
def deTailBytes : List Nat :=
  List.replicate 33 0 ++ deStr0 ++ List.replicate 8 0

/-- A complete concrete `parse_de` input for save version 13. -/
def deWitnessBytes : List Nat :=
  deHeadBytes ++ List.flatten (List.replicate 8 deSlotBytes) ++ List.replicate 12 0
    ++ deMidBytes ++ deTailBytes

/-- A concrete `parse_lobby` input for a legacy (USERPATCH15) replay:
reveal 1, map size 2, raw population 7, game type 9, lock-teams byte 1,
no chat. -/
def lobbyWitnessBytes : List Nat :=
  List.replicate 8 0 ++ [0]
    ++ ([1, 0, 0, 0] ++ [0, 0, 0, 0] ++ [2, 0, 0, 0] ++ [7, 0, 0, 0] ++ [9] ++ [1])
    ++ [0, 0, 0, 0]

/-- A concrete `parse_map` input for a legacy replay: a 1-by-1 map with no
zones, `all_visible = 1`, one tile, no extra data, restore time 7. -/
def mapWitnessBytes : List Nat :=
  [1, 0, 0, 0, 1, 0, 0, 0, 0, 0, 0, 0] ++ [1, 0] ++ [0, 9, 3, 0]
    ++ [0, 0, 0, 0, 0, 0, 0, 0] ++ [0, 0, 0, 0, 0, 0, 0, 0] ++ [7, 0, 0, 0]

/-- A concrete `parse_metadata` input: no AI, owner 3, two players,
cheats byte 1. -/
def metaWitnessBytes : List Nat :=
  [0, 0, 0, 0] ++ List.replicate 24 0 ++ [0, 0, 0, 0] ++ List.replicate 17 0
    ++ [3, 0] ++ [2] ++ [0] ++ [1]

/-- A concrete `parse_mod` input for USERPATCH15 with one player: empty
name, 199 resource f32 values, of which value 198 is `1234.0`
(bit pattern `44 9a 40 00`). -/
def modWitnessBytes : List Nat :=
  List.replicate 44 0 ++ [0, 0] ++ [0] ++ [199, 0, 0, 0] ++ [0]
    ++ List.replicate 792 0 ++ [0, 64, 154, 68]

/-- A buffer of forty `01` bytes: it cannot contain the `PLAYER_END`
marker anywhere. -/
def playerEndWitnessBytes : List Nat := List.replicate 40 1

/-- A buffer whose only Gaia anchor (`05 00 Gaia 00`) starts at index 45. -/
def gaiaWitnessBytes : List Nat :=
  List.replicate 45 0 ++ [5, 0] ++ gaiaMixed ++ [0]

/-- A concrete `parse_version_core` input: game tag `VER 9.4`, the f32
`-1.0` (bytes `00 00 80 bf`), then the u32 37. -/
def versionWitnessBytes : List Nat :=
  [86, 69, 82, 32, 57, 46, 52] ++ [0] ++ [0, 0, 128, 191] ++ [37, 0, 0, 0]

/-- The player-slot record parsed from `deSlotBytes` at save version 13. -/
def deWSlot : DESlot :=
  { number := .vint 3, color_id := .vint 1, team_id := .vint 2,
    ai_name := .vbytes [], name := .vbytes [65, 66], censored_name := .vbytes [65, 66],
    type := .vint 1, profile_id := .vint 7, civilization_id := .vint 5,
    custom_civ_selection := .vnone, prefer_random := .vbool true }

/-- The DE record parsed from `deWitnessBytes` at save version 13. -/
def deW : DERecord :=
  { players := List.replicate 8 deWSlot,
    guid := .vbytes (List.replicate 16 0),
    lobby := .vbytes [], mod := .vbytes [],
    difficulty_id := .vint 1, victory_type_id := .vint 0,
    starting_resources_id := .vint 0, starting_age_id := .vint 2, ending_age_id := .vint 4,
    speed := .vf32 0, population_limit := .vint 200, treaty_length := .vint 0,
    team_together := .vbool false, all_technologies := .vbool false,
    lock_teams := .vbool true, lock_speed := .vbool false,
    multiplayer := .vbool true, cheats := .vbool false,
    record_game := .vbool true, animals_enabled := .vbool false,
    predators_enabled := .vbool true, turbo_enabled := .vbool false,
    shared_exploration := .vbool true, team_positions := .vbool false,
    build := .vnone, timestamp := .vnone, spec_delay := .vint 3,
    rated := .vbool true, allow_specs := .vbool true, hidden_civs := .vbool false,
    visibility_id := .vint 1, rms_mod_id := .vnone, rms_map_id := .vint 9,
    rms_filename := .vnone, dlc_ids := .vnatList [3, 5] }

/-- The raw lobby fields parsed from `lobbyWitnessBytes`. -/
def lobbyRawW : LobbyRaw :=
  { reveal_map_id := 1, map_size := 2, population := 7, game_type_id := 9,
    lock_teams := 1, chat := [], seed := none }

/-- The lobby record parsed from `lobbyWitnessBytes`. -/
def lobbyW : LobbyRecord :=
  { reveal_map_id := .vint 1, map_size := .vint 2, population := .vint 175,
    game_type_id := .vint 9, lock_teams := .vbool true, chat := [], seed := .vnone }

/-- The map record parsed from `mapWitnessBytes`. -/
def mapW : MapRecord :=
  { all_visible := .vbool true, restore_time := .vint 7, dimension := .vint 1,
    tiles := [(9, 3)] }

/-- The metadata record parsed from `metaWitnessBytes`. -/
def metaW : MetadataRecord :=
  { speed := .vf32 0, owner_id := .vint 3, cheats := .vbool true }

/-- The resource values parsed from `modWitnessBytes`. -/
def modWitnessValues : List ℚ := List.replicate 198 0 ++ [1234]

/-- `pyRound2` always returns an integer multiple of 1/100: the value is
`mkRat k 100` for the rounded integer `k`, and multiplying it by 100
recovers `k` exactly. -/
theorem pyRound2_hundredth (q : ℚ) : ∃ k : ℤ, pyRound2 q = mkRat k 100 ∧
    pyRound2 q * 100 = (k : ℚ) := by
  refine ⟨_, rfl, ?_⟩
  unfold pyRound2
  rw [Rat.mkRat_eq_div]
  push_cast
  field_simp

/-- A successful `parse_de` result with a record means the version is DE and
the record is `mk_de` of a successful raw parse. -/
theorem parse_de_ok {v : Version} {s : ℚ} {k : Bool} {c : Cursor} {d : DERecord}
    {c₂ : Cursor} (h : parse_de v s k c = .ok (some d, c₂)) :
    v = Version.DE ∧ ∃ raw, parse_de_raw s k c = .ok (raw, c₂) ∧ d = mk_de raw := by
  unfold parse_de at h
  split at h
  · simp at h
  next hv =>
    refine ⟨not_not.mp hv, ?_⟩
    split at h
    next raw c₃ heq =>
      refine ⟨raw, ?_, ?_⟩
      · rw [heq]
        injection h with h₁
        injection h₁ with h₂ h₃
        rw [h₃]
      · injection h with h₁
        injection h₁ with h₂ h₃
        injection h₂ with h₄
        exact h₄.symm
    next e heq => cases h

/-- For a non-DE version, `parse_de` returns no record and leaves the
cursor unmoved. -/
theorem parse_de_none {v : Version} (s : ℚ) (k : Bool) (c : Cursor)
    (hv : v ≠ Version.DE) : parse_de v s k c = .ok (none, c) := by
  unfold parse_de
  rw [if_pos hv]

/-- The player list of a successful raw DE parse comes from the slot loop. -/
theorem parse_de_raw_players {s : ℚ} {k : Bool} {c : Cursor} {raw : DERaw} {c₂ : Cursor}
    (h : parse_de_raw s k c = .ok (raw, c₂)) :
    ∃ n c₁ c₃, parse_de_slots s [] n c₁ = .ok (raw.players, c₃) := by
  unfold parse_de_raw at h
  split at h
  next e heq => cases h
  next head c₁ hhead =>
    split at h
    next e heq => cases h
    next players c₃ hslots =>
      dsimp only [] at h
      split at h
      next e heq => cases h
      next c₅ hempty =>
        split at h
        next e heq => cases h
        next mid c₆ hmid =>
          split at h
          next e heq => cases h
          next tailTs c₇ htail =>
            split at h
            next e heq => cases h
            next rms hrms =>
              cases h
              exact ⟨_, _, _, hslots⟩

/-- A successful slot parse is `mk_slot` of a successful raw slot parse. -/
theorem parse_de_slot_mk {s : ℚ} {c : Cursor} {sl : DESlot} {c₂ : Cursor}
    (h : parse_de_slot s c = .ok (sl, c₂)) : ∃ r, sl = mk_slot s r := by
  unfold parse_de_slot at h
  split at h
  next e heq => cases h
  next r c₃ heq =>
    cases h
    exact ⟨r, rfl⟩

/-- Every slot produced by the slot loop that is not already in the
accumulator is `mk_slot` of some raw slot. -/
theorem parse_de_slots_mk {s : ℚ} :
    ∀ {n : Nat} {acc : List DESlot} {c : Cursor} {sl : List DESlot} {c₂ : Cursor},
      parse_de_slots s acc n c = .ok (sl, c₂) →
      ∀ x ∈ sl, x ∈ acc ∨ ∃ r, x = mk_slot s r := by
  intro n
  induction n with
  | zero =>
    intro acc c sl c₂ h x hx
    unfold parse_de_slots at h
    cases h
    exact Or.inl (List.mem_reverse.mp hx)
  | succ n ih =>
    intro acc c sl c₂ h x hx
    unfold parse_de_slots at h
    split at h
    next e heq => cases h
    next s₀ c₁ hslot =>
      rcases ih h x hx with hmem | hr
      · rcases List.mem_cons.mp hmem with h₀ | hacc
        · exact Or.inr (h₀ ▸ parse_de_slot_mk hslot)
        · exact Or.inl hacc
      · exact Or.inr hr

/-- A successful `parse_lobby` result is `mk_lobby` of a successful raw
parse at the same cursor positions. -/
theorem parse_lobby_shape {v : Version} {s : ℚ} {c : Cursor} {rec : LobbyRecord}
    {c₂ : Cursor} (h : parse_lobby v s c = .ok (rec, c₂)) :
    ∃ raw, parse_lobby_raw v s c = .ok (raw, c₂) ∧ rec = mk_lobby v raw := by
  unfold parse_lobby at h
  split at h
  next e heq => cases h
  next r c₃ heq =>
    cases h
    exact ⟨r, heq, rfl⟩

/-- A successful `parse_map` result is `mk_map` of a successful raw parse. -/
theorem parse_map_shape {v : Version} {s : ℚ} {c : Cursor} {m : MapRecord}
    {c₂ : Cursor} (h : parse_map v s c = .ok (m, c₂)) :
    ∃ raw, parse_map_raw v s c = .ok (raw, c₂) ∧ m = mk_map raw := by
  unfold parse_map at h
  split at h
  next e heq => cases h
  next r c₃ heq =>
    cases h
    exact ⟨r, heq, rfl⟩

/-- A successful `parse_metadata` result is `mk_metadata` of a successful
raw parse, paired with that parse's player count. -/
theorem parse_metadata_shape {s : ℚ} {b : Bool} {c : Cursor} {md : MetadataRecord}
    {np : ℤ} {c₂ : Cursor} (h : parse_metadata s b c = .ok ((md, np), c₂)) :
    ∃ raw, parse_metadata_raw s b c = .ok (raw, c₂) ∧ md = mk_metadata raw ∧
      np = raw.num_players := by
  unfold parse_metadata at h
  split at h
  next e heq => cases h
  next r c₃ heq =>
    cases h
    exact ⟨r, heq, rfl, rfl⟩

/-- C1 counterexample: the claim inverts the termination test of the
string-block entry loop.  On input `64 00 00 00` the u32 read as `crc`
is 100, which lies inside the open interval (0, 255), yet the loop
terminates at once with no entry read; on an input whose first u32 is 400
(outside the interval) the loop reads and accumulates a DE-string entry
before stopping at the next u32, 5. -/
theorem C1_string_block_cex :
    string_block (cursorOf [100, 0, 0, 0]) = .ok ([], ⟨[100, 0, 0, 0], [], 4⟩) ∧
    ((0 : Nat) < 100 ∧ (100 : Nat) < 255) ∧
    leNat [144, 1, 0, 0] = 400 ∧
    string_block (cursorOf [144, 1, 0, 0, 96, 10, 2, 0, 65, 66, 5, 0, 0, 0]) =
      .ok ([[[65, 66]]], ⟨[144, 1, 0, 0, 96, 10, 2, 0, 65, 66, 5, 0, 0, 0], [], 14⟩) ∧
    ¬ ((0 : Nat) < 400 ∧ (400 : Nat) < 255) := by decide

/-- C1 as amended: each iteration of the string-block entry loop consumes a
u32 `crc`; the loop terminates exactly when `crc` lies inside the open
interval (0, 255) (the terminating u32 is consumed, not restored), and
otherwise reads one DE-string entry, splits it on `:`, accumulates it and
continues. -/
theorem C1_string_block_amended (fuel : Nat) (acc : List (List (List Nat)))
    (c c₁ : Cursor) (crc : Nat) (h : readU32 c = .ok (crc, c₁)) :
    (0 < crc ∧ crc < 255 → string_block_loop (fuel + 1) acc c = .ok (acc, c₁)) ∧
    (¬ (0 < crc ∧ crc < 255) → ∀ s c₂, de_string c₁ = .ok (s, c₂) →
      string_block_loop (fuel + 1) acc c =
        string_block_loop fuel (acc ++ [splitByte 58 s]) c₂) ∧
    (¬ (0 < crc ∧ crc < 255) → ∀ e, de_string c₁ = .error e →
      string_block_loop (fuel + 1) acc c = .error e) := by
  refine ⟨?_, ?_, ?_⟩
  · intro h₂
    unfold string_block_loop
    simp only [h, if_pos h₂]
  · intro h₂ s c₂ hde
    unfold string_block_loop
    simp only [h, if_neg h₂, hde]
    cases fuel with
    | zero => rfl
    | succ n => rfl
  · intro h₂ e hde
    unfold string_block_loop
    simp only [h, if_neg h₂, hde]

/-- C1 witness: the amended step at a concrete input; the u32 is 100 and
the loop stops, consuming the four bytes. -/
theorem C1_string_block_amended_wit :
    readU32 (cursorOf [100, 0, 0, 0]) = .ok (100, ⟨[100, 0, 0, 0], [], 4⟩) ∧
    string_block_loop 1 [] (cursorOf [100, 0, 0, 0]) =
      .ok ([], ⟨[100, 0, 0, 0], [], 4⟩) := by
  refine ⟨by decide, ?_⟩
  have h := C1_string_block_amended 0 [] (cursorOf [100, 0, 0, 0])
    ⟨[100, 0, 0, 0], [], 4⟩ 100 (by decide)
  exact h.1 (by decide)

/-- C2: evaluation of the settings-anchor step on a remainder that does not
contain the non-DE anchor bytes.  `bytes.find` yields -1, the code computes
`end = -1 + 13 = 12` and silently seeks the cursor to `remainder_start + 12`
instead of raising the fatal error the spec requires: no exception path
exists in the source for a missing settings anchor. -/
theorem C2_settings_anchor_eval :
    pyFind (List.replicate 20 0) settingsAnchorNonDE = -1 ∧
    parse_scenario_seek_nonde (cursorOf (List.replicate 20 0)) =
      .ok ((), ⟨List.replicate 20 0, List.replicate 8 0, 12⟩) := by decide

/-- C3 counterexample: with `values[198] = 1234.0` the code returns minor
version `"2.3.4"` — the digits of `234` joined by dots — not `"234"` as the
claim states; and the major component is the floor quotient 1. -/
theorem C3_parse_mod_cex :
    parse_mod Version.USERPATCH15 1 (cursorOf modWitnessBytes) =
      .ok (some (1, "2.3.4"), cursorOf modWitnessBytes) ∧
    ("2.3.4" : String) ≠ "234" := by
  constructor
  · decide
  · decide

/-- C3 as amended: for USERPATCH15, `parse_mod` returns
`(number // 1000, '.'.join(list(str(number % 1000))))` where
`number = int(values[198])` — integer floor division for the major part and
the dot-joined decimal digits of `number % 1000` for the minor part — with
the cursor restored to its entry position. -/
theorem C3_parse_mod_amended (numPlayers : Nat) (c c₁ : Cursor) (values : List ℚ)
    (h : parse_mod_values numPlayers c = .ok (values, c₁)) (hl : 198 < values.length) :
    parse_mod Version.USERPATCH15 numPlayers c =
      .ok (some (Int.fdiv (pyInt (values.get ⟨198, hl⟩)) 1000,
                 up_minor (pyInt (values.get ⟨198, hl⟩))), c) := by
  unfold parse_mod
  simp only [h]
  rw [if_pos trivial, dif_pos hl]

/-- C3 witness: the amended statement at the concrete input. -/
theorem C3_parse_mod_amended_wit :
    parse_mod_values 1 (cursorOf modWitnessBytes) =
      .ok (modWitnessValues, ⟨modWitnessBytes, [], 848⟩) ∧
    parse_mod Version.USERPATCH15 1 (cursorOf modWitnessBytes) =
      .ok (some (1, "2.3.4"), cursorOf modWitnessBytes) := by
  refine ⟨by decide, ?_⟩
  have h := C3_parse_mod_amended 1 (cursorOf modWitnessBytes) ⟨modWitnessBytes, [], 848⟩
    modWitnessValues (by decide) (by decide)
  rw [h]
  decide

/-- C4 counterexample: for a DE replay with rounded save version 25.22 (not
a legacy edition) and two players, the code uses `rev = 43`, not
`7 + 4 * 2 = 15` as the claim predicts: with the Gaia anchor at offset 45
the cursor lands at `45 - 2 - 43 = 0`, not at `45 - 2 - 15 = 28`. -/
theorem C4_players_rev_cex :
    parse_players_rev (mkRat 2522 100) 2 = 43 ∧
    pyFind gaiaWitnessBytes ([5, 0] ++ gaiaMixed ++ [0]) = 45 ∧
    parse_players_seek Version.DE (mkRat 2522 100) 2 (cursorOf gaiaWitnessBytes) =
      .ok ((), cursorOf gaiaWitnessBytes) ∧
    (43 : ℤ) ≠ 7 + 4 * 2 := by decide

/-- C4 as amended: `rev` is 43 when the rounded save version is below 61.5
and `7 + 4 * num_players` otherwise (the choice is keyed on the save
version, not on the edition), and the cursor is positioned at
`anchor_absolute - num_players - rev`. -/
theorem C4_players_rev_amended (v : Version) (s : ℚ) (n : Nat) (c : Cursor) (a : ℤ)
    (ha : pyFind c.rest
        ([5, 0] ++ (if v = Version.DE ∨ v = Version.HD then gaiaMixed else gaiaUpper) ++ [0]) = a)
    (ht : 0 ≤ (c.pos : ℤ) + a - n - parse_players_rev s n) :
    parse_players_rev s n = (if (mkRat 123 2) ≤ s then 7 + (n : ℤ) * 4 else 43) ∧
    parse_players_seek v s n c =
      .ok ((), seekTo ((c.pos : ℤ) + a - n - parse_players_rev s n).toNat c) := by
  refine ⟨rfl, ?_⟩
  simp only [parse_players_seek]
  rw [ha]
  rw [if_neg (by omega)]

/-- C4 witness: the amended statement at save 61.5 with two players
(`rev = 15`), anchor at offset 45, target `45 - 2 - 15 = 28`. -/
theorem C4_players_rev_amended_wit :
    parse_players_rev (mkRat 123 2) 2 = 15 ∧
    parse_players_seek Version.DE (mkRat 123 2) 2 (cursorOf gaiaWitnessBytes) =
      .ok ((), ⟨gaiaWitnessBytes, gaiaWitnessBytes.drop 28, 28⟩) := by
  have h := C4_players_rev_amended Version.DE (mkRat 123 2) 2 (cursorOf gaiaWitnessBytes) 45
    (by decide) (by decide)
  refine ⟨by decide, ?_⟩
  rw [h.2]
  decide

/-- C5 counterexample: a player whose remainder holds fewer than nine bytes
(here: none at all) has no `PLAYER_END` marker anywhere, and it is the last
player (`player_number = 1` of `num_players = 2`), yet `parse_player`
fails — the device read `data[8]` raises `IndexError` before the
tolerated-absence branch is reached — where the claim promises a returned
player record. -/
theorem C5_player_end_cex :
    parse_player_end (37 : ℚ) 1 2 (cursorOf []) =
      .error "IndexError: index out of range" ∧
    findPlayerEnd ([] : List Nat) = none ∧
    (1 : Nat) = 2 - 1 := by decide

/-- C5 as amended: for `save >= 37`, when at least nine bytes remain (so the
device byte exists) and the `PLAYER_END` marker is absent both from the
100-byte window and from the rest of the buffer, `parse_player` raises
exactly when the player is not the last one; for the last player the
missing marker is tolerated and the player record is returned with the
cursor at end of buffer. -/
theorem C5_player_end_amended (save : ℚ) (pn np : Nat) (c : Cursor) (w : List Nat)
    (hw : c.rest.take 100 = w) (h8 : 8 < w.length)
    (hs : (37 : ℚ) ≤ save)
    (h₁ : findPlayerEnd w = none)
    (h₂ : findPlayerEnd (c.rest.drop w.length) = none) :
    parse_player_end save pn np c =
      if pn < np - 1 then .error "could not find player end"
      else .ok (w.get ⟨8, h8⟩,
                ⟨c.data, [], c.pos + w.length + (c.rest.drop w.length).length⟩) := by
  unfold parse_player_end
  rw [if_pos hs]
  subst hw
  dsimp only []
  rw [dif_pos h8]
  simp only [h₁, h₂]

/-- C5 witness: the amended statement on a 40-byte buffer of `01` bytes
(no marker anywhere): the first of two players fails, the last player
returns its device byte with the cursor at end of buffer. -/
theorem C5_player_end_amended_wit :
    parse_player_end (37 : ℚ) 0 2 (cursorOf playerEndWitnessBytes) =
      .error "could not find player end" ∧
    parse_player_end (37 : ℚ) 1 2 (cursorOf playerEndWitnessBytes) =
      .ok (1, ⟨playerEndWitnessBytes, [], 40⟩) := by
  have g₁ := C5_player_end_amended 37 0 2 (cursorOf playerEndWitnessBytes)
    playerEndWitnessBytes (by decide) (by decide) (by decide) (by decide) (by decide)
  have g₂ := C5_player_end_amended 37 1 2 (cursorOf playerEndWitnessBytes)
    playerEndWitnessBytes (by decide) (by decide) (by decide) (by decide) (by decide)
  constructor
  · rw [g₁]
    decide
  · rw [g₂]
    decide

/-- C6: a successful `parse_version_core` always returns a save version that
is an exact multiple of 1/100 (rounded to two decimal places), and when the
f32 read from the header is the `-1.0` sentinel, the save version is the
rounding of `37` when the following u32 is 37 and of `s / 65536`
otherwise. -/
theorem C6_parse_version_thm (c c₂ : Cursor) (g : List Nat) (save : ℚ)
    (h : parse_version_core c = .ok ((g, save), c₂)) :
    (∃ k : ℤ, save = mkRat k 100 ∧ save * 100 = (k : ℚ)) ∧
    (∀ blk c₁ s c₃, readExact 12 c = .ok (blk, c₁) →
      leNat ((blk.drop 8).take 4) = f32NegOneBits →
      readU32 c₁ = .ok (s, c₃) →
      save = pyRound2 (if s = 37 then (37 : ℚ) else mkRat s 65536)) := by
  unfold parse_version_core at h
  split at h
  next e heq => cases h
  next blk₀ c₁₀ hre =>
    dsimp only [] at h
    split at h
    next hbits =>
      split at h
      next e heq => cases h
      next s₀ c₃₀ hru =>
        cases h
        refine ⟨pyRound2_hundredth _, ?_⟩
        intro blk c₁ s c₃ hre' hbits' hru'
        rw [hre] at hre'
        injection hre' with hre₂
        injection hre₂ with hblk hc₁
        subst hblk
        subst hc₁
        rw [hru] at hru'
        injection hru' with hru₂
        injection hru₂ with hs hc₃
        subst hs
        rfl
    next hbits =>
      split at h
      next q hdq =>
        cases h
        refine ⟨pyRound2_hundredth _, ?_⟩
        intro blk c₁ s c₃ hre' hbits' hru'
        rw [hre] at hre'
        injection hre' with hre₂
        injection hre₂ with hblk hc₁
        subst hblk
        exact absurd hbits' hbits
      next hdq => cases h

/-- C6 witness: the theorem at a concrete new-format input (`VER 9.4`, f32
bits of `-1.0`, then the u32 37): the returned save version is 37.00. -/
theorem C6_parse_version_wit :
    (∃ k : ℤ, (37 : ℚ) = mkRat k 100 ∧ (37 : ℚ) * 100 = (k : ℚ)) ∧
    (37 : ℚ) = pyRound2 (if (37 : Nat) = 37 then (37 : ℚ) else mkRat 37 65536) := by
  have h := C6_parse_version_thm (cursorOf versionWitnessBytes)
    ⟨versionWitnessBytes, [], 16⟩ [86, 69, 82, 32, 57, 46, 52] 37 (by decide)
  exact ⟨h.1, h.2 [86, 69, 82, 32, 57, 46, 52, 0, 0, 0, 128, 191]
    ⟨versionWitnessBytes, versionWitnessBytes.drop 12, 12⟩ 37
    ⟨versionWitnessBytes, [], 16⟩ (by decide) (by decide) (by decide)⟩

/-- C7: the population value of every successfully parsed lobby is the raw
population field scaled by 25 when the version is neither DE nor HD, and
unchanged (scaled by 1) when the version is DE or HD. -/
theorem C7_lobby_population_thm (v : Version) (s : ℚ) (c : Cursor) (rec : LobbyRecord)
    (c₂ : Cursor) (h : parse_lobby v s c = .ok (rec, c₂)) :
    ∃ raw, parse_lobby_raw v s c = .ok (raw, c₂) ∧
      rec.population = .vint (raw.population *
        (if v ≠ Version.DE ∧ v ≠ Version.HD then 25 else 1)) := by
  obtain ⟨raw, hraw, rfl⟩ := parse_lobby_shape h
  exact ⟨raw, hraw, rfl⟩

/-- C7 witness: the theorem at the concrete legacy lobby input (raw
population 7, output 175). -/
theorem C7_lobby_population_wit :
    ∃ raw, parse_lobby_raw Version.USERPATCH15 13 (cursorOf lobbyWitnessBytes) =
        .ok (raw, ⟨lobbyWitnessBytes, [], 31⟩) ∧
      lobbyW.population = .vint (raw.population *
        (if Version.USERPATCH15 ≠ Version.DE ∧ Version.USERPATCH15 ≠ Version.HD
         then 25 else 1)) :=
  C7_lobby_population_thm Version.USERPATCH15 13 (cursorOf lobbyWitnessBytes) lobbyW
    ⟨lobbyWitnessBytes, [], 31⟩ (by decide)

/-- C8: every boolean-named field of the output aggregates is a canonical
boolean: the DE record's seventeen boolean-named entries and every player
slot's `prefer_random`, the lobby's `lock_teams`, the map's `all_visible`
and the metadata's `cheats` are all `vbool` values, never raw integers. -/
theorem C8_bool_fields_thm :
    (∀ v s k c d c₂, parse_de v s k c = Except.ok (some d, c₂) →
      (d.team_together.isBool ∧ d.all_technologies.isBool ∧ d.lock_teams.isBool ∧
       d.lock_speed.isBool ∧ d.multiplayer.isBool ∧ d.cheats.isBool ∧
       d.record_game.isBool ∧ d.animals_enabled.isBool ∧ d.predators_enabled.isBool ∧
       d.turbo_enabled.isBool ∧ d.shared_exploration.isBool ∧ d.team_positions.isBool ∧
       d.rated.isBool ∧ d.allow_specs.isBool ∧ d.hidden_civs.isBool) ∧
      ∀ sl ∈ d.players, sl.prefer_random.isBool) ∧
    (∀ v s c rec c₂, parse_lobby v s c = Except.ok (rec, c₂) → rec.lock_teams.isBool) ∧
    (∀ v s c m c₂, parse_map v s c = Except.ok (m, c₂) → m.all_visible.isBool) ∧
    (∀ s b c md np c₂, parse_metadata s b c = Except.ok ((md, np), c₂) →
      md.cheats.isBool) := by
  refine ⟨?_, ?_, ?_, ?_⟩
  · intro v s k c d c₂ h
    obtain ⟨-, raw, hraw, rfl⟩ := parse_de_ok h
    refine ⟨⟨rfl, rfl, rfl, rfl, rfl, rfl, rfl, rfl, rfl, rfl, rfl, rfl, rfl, rfl, rfl⟩, ?_⟩
    intro sl hsl
    obtain ⟨n, c₁, c₃, hslots⟩ := parse_de_raw_players hraw
    rcases parse_de_slots_mk hslots sl hsl with hmem | ⟨r, rfl⟩
    · cases hmem
    · rfl
  · intro v s c rec c₂ h
    obtain ⟨raw, -, rfl⟩ := parse_lobby_shape h
    rfl
  · intro v s c m c₂ h
    obtain ⟨raw, -, rfl⟩ := parse_map_shape h
    rfl
  · intro s b c md np c₂ h
    obtain ⟨raw, -, rfl, -⟩ := parse_metadata_shape h
    rfl

/-- C8 witness: the boolean fields at the concrete parsed records: the DE
record and its first slot, the lobby, map and metadata records. -/
theorem C8_bool_fields_wit :
    deW.cheats.isBool ∧ deWSlot.prefer_random.isBool ∧
    lobbyW.lock_teams.isBool ∧ mapW.all_visible.isBool ∧ metaW.cheats.isBool := by
  have h := C8_bool_fields_thm
  have h1 := h.1 Version.DE 13 false (cursorOf deWitnessBytes) deW
    ⟨deWitnessBytes, [], 1085⟩ (by decide)
  have h2 := h.2.1 Version.USERPATCH15 13 (cursorOf lobbyWitnessBytes) lobbyW
    ⟨lobbyWitnessBytes, [], 31⟩ (by decide)
  have h3 := h.2.2.1 Version.USERPATCH15 13 (cursorOf mapWitnessBytes) mapW
    ⟨mapWitnessBytes, [], 38⟩ (by decide)
  have h4 := h.2.2.2 13 false (cursorOf metaWitnessBytes) metaW 2
    ⟨metaWitnessBytes, [], 54⟩ (by decide)
  exact ⟨h1.1.2.2.2.2.2.1, h1.2 deWSlot (by decide), h2, h3, h4⟩

/-- C9: the top-level `mod` entry is the DE block's `dlc_ids` whenever a DE
record is present (the version is DE), and the `parse_mod` pair (or `None`)
only when the DE block is absent — `parse_de` yields a record exactly for
version DE and `None`, leaving the cursor unmoved, otherwise. -/
theorem C9_mod_field_thm (v : Version) (s : ℚ) (k : Bool) (c : Cursor)
    (mp : Option (ℤ × String)) :
    (∀ d c₂, parse_de v s k c = .ok (some d, c₂) →
      v = Version.DE ∧ parse_result_mod (some d) mp = d.dlc_ids) ∧
    (v ≠ Version.DE → parse_de v s k c = .ok (none, c) ∧
      parse_result_mod none mp =
        (match mp with | some p => .vpair p.1 p.2 | none => .vnone)) := by
  constructor
  · intro d c₂ h
    exact ⟨(parse_de_ok h).1, rfl⟩
  · intro hv
    refine ⟨parse_de_none s k c hv, ?_⟩
    cases mp with
    | none => rfl
    | some p => rfl

/-- C9 witness: the theorem at a DE parse (the `mod` entry is the dlc-id
list `[3, 5]`) and at a USERPATCH15 parse (the `mod` entry is the
userpatch pair). -/
theorem C9_mod_field_wit :
    parse_result_mod (some deW) (some (1, "2.3.4")) = .vnatList [3, 5] ∧
    parse_de Version.USERPATCH15 13 false (cursorOf modWitnessBytes) =
      .ok (none, cursorOf modWitnessBytes) ∧
    parse_result_mod none (some (1, "2.3.4")) = .vpair 1 "2.3.4" := by
  have hde := (C9_mod_field_thm Version.DE 13 false (cursorOf deWitnessBytes)
    (some (1, "2.3.4"))).1 deW ⟨deWitnessBytes, [], 1085⟩ (by decide)
  have hup := (C9_mod_field_thm Version.USERPATCH15 13 false (cursorOf modWitnessBytes)
    (some (1, "2.3.4"))).2 (by decide)
  refine ⟨?_, hup.1, hup.2⟩
  rw [hde.2]
  decide

/-- C10: every DE player slot parsed with rounded save version below 66.3
still carries a `censored_name` entry, and it equals the slot's `name`. -/
theorem C10_censored_name_thm (s : ℚ) (c : Cursor) (sl : DESlot) (c₂ : Cursor)
    (hs : s < mkRat 663 10) (h : parse_de_slot s c = .ok (sl, c₂)) :
    sl.censored_name = sl.name := by
  obtain ⟨r, rfl⟩ := parse_de_slot_mk h
  simp only [mk_slot]
  rw [if_neg (not_le.mpr hs)]

/-- C10 witness: the theorem at the concrete slot input at save version 13:
the parsed slot's `censored_name` equals its `name`. -/
theorem C10_censored_name_wit : deWSlot.censored_name = deWSlot.name :=
  C10_censored_name_thm 13 (cursorOf deSlotBytes) deWSlot ⟨deSlotBytes, [], 65⟩
    (by decide) (by decide)
